import Mathlib

/-!
# Verification of the holy-combat movement / collision / camera core

Shallow embedding of `src/main.rs` (bevy 0.13-era, glam vector math).

Scalar model: Rust `f32` values are modelled by `F`, an exact-real scalar
extended with the IEEE-754 special values `nan`, `inf` (+∞) and `ninf` (−∞).
Arithmetic follows the IEEE-754 / Rust `f32` rules for special values
(`0/0 = NaN`, `x/0 = ±∞` for `x ≠ 0`, `0 * ∞ = NaN`, `NaN` propagates,
`f32::max` ignores `NaN`), while finite arithmetic is exact real arithmetic:
rounding, overflow and the sign of zero are not modelled.

Vector model: `Vec2F` / `Vec3F` mirror glam's `Vec2` / `Vec3` with the
operations the source uses (`dot`, `length`, `length_recip`, `distance`,
`normalize`, `normalize_or_zero`, `project_onto`, `reject_from`, `lerp`,
`extend`), each translated from the glam definitions
(`length = sqrt (dot self self)`, `normalize = self * length_recip`,
`project_onto rhs = rhs * dot self rhs * recip (dot rhs rhs)`,
`reject_from rhs = self - project_onto self rhs`,
`lerp rhs s = self + (rhs - self) * s`,
`normalize_or_zero = if length_recip finite and positive then
 self * length_recip else 0`; `glam_assert` is disabled in release builds).
-/

/-- IEEE-754-style scalar: an exact real value, `NaN`, `+∞` or `−∞`. -/
inductive F where
  | fin : ℝ → F
  | nan : F
  | inf : F
  | ninf : F

namespace F

/-- `f32` negation. -/
def neg : F → F
  | fin a => fin (-a)
  | nan => nan
  | inf => ninf
  | ninf => inf

/-- `f32` addition (`∞ + (−∞) = NaN`, `NaN` propagates). -/
def add : F → F → F
  | fin a, fin b => fin (a + b)
  | nan, _ => nan
  | _, nan => nan
  | inf, ninf => nan
  | ninf, inf => nan
  | inf, _ => inf
  | _, inf => inf
  | ninf, _ => ninf
  | _, ninf => ninf

/-- `f32` subtraction, `a - b = a + (-b)`. -/
def sub (a b : F) : F := add a (neg b)

/-- `f32` multiplication (`0 * ∞ = NaN`, `NaN` propagates). -/
noncomputable def mul : F → F → F
  | fin a, fin b => fin (a * b)
  | nan, _ => nan
  | _, nan => nan
  | inf, fin b => if 0 < b then inf else if b < 0 then ninf else nan
  | fin a, inf => if 0 < a then inf else if a < 0 then ninf else nan
  | ninf, fin b => if 0 < b then ninf else if b < 0 then inf else nan
  | fin a, ninf => if 0 < a then ninf else if a < 0 then inf else nan
  | inf, inf => inf
  | inf, ninf => ninf
  | ninf, inf => ninf
  | ninf, ninf => inf

/-- `f32` division (`0/0 = NaN`, `x/0 = ±∞` for finite `x ≠ 0`; the sign of
zero is not modelled, a zero divisor is treated as `+0`). -/
noncomputable def div : F → F → F
  | fin a, fin b =>
      if b = 0 then (if a = 0 then nan else if 0 < a then inf else ninf)
      else fin (a / b)
  | nan, _ => nan
  | _, nan => nan
  | fin _, inf => fin 0
  | fin _, ninf => fin 0
  | inf, fin b => if 0 ≤ b then inf else ninf
  | ninf, fin b => if 0 ≤ b then ninf else inf
  | inf, inf => nan
  | inf, ninf => nan
  | ninf, inf => nan
  | ninf, ninf => nan

/-- `f32::recip`, defined in Rust as `1.0 / self`. -/
noncomputable def recip (a : F) : F := div (fin 1) a

/-- `f32::sqrt` (`sqrt` of a negative value is `NaN`). -/
noncomputable def sqrt : F → F
  | fin a => if a < 0 then nan else fin (Real.sqrt a)
  | nan => nan
  | inf => inf
  | ninf => nan

/-- `f32::max`: the maximum, ignoring `NaN`. -/
noncomputable def max : F → F → F
  | nan, b => b
  | a, nan => a
  | fin a, fin b => fin (a ⊔ b)
  | inf, _ => inf
  | _, inf => inf
  | ninf, b => b
  | a, ninf => a

/-- The IEEE `>=` comparison (any comparison with `NaN` is false). -/
noncomputable def ge : F → F → Bool
  | fin a, fin b => if b ≤ a then true else false
  | nan, _ => false
  | _, nan => false
  | inf, _ => true
  | _, inf => false
  | ninf, ninf => true
  | ninf, _ => false
  | fin _, ninf => true

/-- The IEEE `>` comparison (any comparison with `NaN` is false). -/
noncomputable def gt : F → F → Bool
  | fin a, fin b => if b < a then true else false
  | nan, _ => false
  | _, nan => false
  | inf, inf => false
  | inf, _ => true
  | _, inf => false
  | ninf, _ => false
  | fin _, ninf => true

/-- `f32::is_finite`: true exactly for (finite) real values. -/
def is_finite : F → Bool
  | fin _ => true
  | _ => false

@[simp] lemma neg_fin (a : ℝ) : neg (fin a) = fin (-a) := rfl

@[simp] lemma add_fin (a b : ℝ) : add (fin a) (fin b) = fin (a + b) := rfl

@[simp] lemma add_fin_nan (a : F) : add a nan = nan := by cases a <;> rfl

@[simp] lemma add_nan_fin (a : F) : add nan a = nan := by cases a <;> rfl

@[simp] lemma sub_fin (a b : ℝ) : sub (fin a) (fin b) = fin (a - b) := by
  simp [sub, add, neg, sub_eq_add_neg]

@[simp] lemma sub_fin_nan (a : F) : sub a nan = nan := by cases a <;> rfl

@[simp] lemma sub_nan_fin (a : F) : sub nan a = nan := by cases a <;> rfl

@[simp] lemma mul_fin (a b : ℝ) : mul (fin a) (fin b) = fin (a * b) := rfl

@[simp] lemma mul_fin_nan (a : F) : mul a nan = nan := by cases a <;> rfl

@[simp] lemma mul_nan_fin (a : F) : mul nan a = nan := by cases a <;> rfl

@[simp] lemma mul_zero_inf : mul (fin 0) inf = nan := by
  show (if (0:ℝ) < 0 then inf else if (0:ℝ) < 0 then ninf else nan) = nan
  norm_num

@[simp] lemma max_fin (a b : ℝ) : max (fin a) (fin b) = fin (a ⊔ b) := rfl

@[simp] lemma sqrt_fin (a : ℝ) (h : 0 ≤ a) : sqrt (fin a) = fin (Real.sqrt a) := by
  simp [sqrt, not_lt.mpr h]

@[simp] lemma div_fin (a b : ℝ) (hb : b ≠ 0) : div (fin a) (fin b) = fin (a / b) := by
  simp [div, hb]

@[simp] lemma div_zero_zero : div (fin 0) (fin 0) = nan := by
  simp [div]

@[simp] lemma div_nan_fin (a : F) : div nan a = nan := by cases a <;> rfl

@[simp] lemma div_fin_nan (a : F) : div a nan = nan := by cases a <;> rfl

lemma div_pos_zero (a : ℝ) (h : 0 < a) : div (fin a) (fin 0) = inf := by
  simp [div, h, ne_of_gt h]

@[simp] lemma recip_fin (a : ℝ) (ha : a ≠ 0) : recip (fin a) = fin (1 / a) := by
  simp [recip, ha]

@[simp] lemma recip_zero : recip (fin 0) = inf := by
  simp [recip, div]

@[simp] lemma recip_nan : recip nan = nan := rfl

@[simp] lemma ge_fin (a b : ℝ) : ge (fin a) (fin b) = true ↔ b ≤ a := by
  simp [ge]

lemma ge_fin_false (a b : ℝ) (h : a < b) : ge (fin a) (fin b) = false := by
  simp [ge, not_le.mpr h]

@[simp] lemma gt_fin (a b : ℝ) : gt (fin a) (fin b) = true ↔ b < a := by
  simp [gt]

@[simp] lemma is_finite_fin (a : ℝ) : is_finite (fin a) = true := rfl

@[simp] lemma is_finite_inf : is_finite inf = false := rfl

@[simp] lemma is_finite_nan : is_finite nan = false := rfl

@[simp] lemma fin_injEq (a b : ℝ) : fin a = fin b ↔ a = b := by
  constructor
  · intro h; injection h
  · intro h; rw [h]

@[simp] lemma fin_ne_nan (a : ℝ) : fin a ≠ nan := by intro h; injection h

@[simp] lemma nan_ne_fin (a : ℝ) : nan ≠ fin a := by intro h; injection h

end F

/-- glam `Vec2`, with `f32` components modelled by `F`. -/
structure Vec2F where
  x : F
  y : F

/-- glam `Vec3`, with `f32` components modelled by `F`. -/
structure Vec3F where
  x : F
  y : F
  z : F

namespace Vec2F

/-- Vec2 `*` scalar (componentwise). -/
noncomputable def smul (v : Vec2F) (s : F) : Vec2F := ⟨F.mul v.x s, F.mul v.y s⟩

/-- glam `Vec2::dot`: `self.x * rhs.x + self.y * rhs.y`. -/
noncomputable def dot (v w : Vec2F) : F := F.add (F.mul v.x w.x) (F.mul v.y w.y)

/-- glam `Vec2::length`: `sqrt (self.dot self)`. -/
noncomputable def length (v : Vec2F) : F := F.sqrt (dot v v)

/-- glam `Vec2::length_recip`: `self.length().recip()`. -/
noncomputable def length_recip (v : Vec2F) : F := F.recip (length v)

/-- glam `Vec2::normalize_or_zero`:
`let rcp = self.length_recip(); if rcp.is_finite() && rcp > 0.0
 { self * rcp } else { Self::ZERO }`. -/
noncomputable def normalize_or_zero (v : Vec2F) : Vec2F :=
  let rcp := length_recip v
  if F.is_finite rcp && F.gt rcp (F.fin 0) then smul v rcp else ⟨F.fin 0, F.fin 0⟩

/-- glam `Vec2::extend`: append a `z` component. -/
def extend (v : Vec2F) (z : F) : Vec3F := ⟨v.x, v.y, z⟩

end Vec2F

namespace Vec3F

/-- Componentwise addition. -/
def add (v w : Vec3F) : Vec3F := ⟨F.add v.x w.x, F.add v.y w.y, F.add v.z w.z⟩

/-- Componentwise subtraction. -/
def sub (v w : Vec3F) : Vec3F := ⟨F.sub v.x w.x, F.sub v.y w.y, F.sub v.z w.z⟩

/-- Vec3 `*` scalar (componentwise). -/
noncomputable def smul (v : Vec3F) (s : F) : Vec3F :=
  ⟨F.mul v.x s, F.mul v.y s, F.mul v.z s⟩

/-- glam `Vec3::dot`: `self.x * rhs.x + self.y * rhs.y + self.z * rhs.z`. -/
noncomputable def dot (v w : Vec3F) : F :=
  F.add (F.add (F.mul v.x w.x) (F.mul v.y w.y)) (F.mul v.z w.z)

/-- glam `Vec3::length`: `sqrt (self.dot self)`. -/
noncomputable def length (v : Vec3F) : F := F.sqrt (dot v v)

/-- glam `Vec3::length_recip`: `self.length().recip()`. -/
noncomputable def length_recip (v : Vec3F) : F := F.recip (length v)

/-- glam `Vec3::distance`: `(self - rhs).length()`. -/
noncomputable def distance (v w : Vec3F) : F := length (sub v w)

/-- glam `Vec3::normalize`: `self * self.length_recip()` (the debug-only
`glam_assert` on finiteness is disabled in release builds). -/
noncomputable def normalize (v : Vec3F) : Vec3F := smul v (length_recip v)

/-- glam `Vec3::project_onto`:
`rhs * self.dot(rhs) * rhs.dot(rhs).recip()`. -/
noncomputable def project_onto (v rhs : Vec3F) : Vec3F :=
  smul (smul rhs (dot v rhs)) (F.recip (dot rhs rhs))

/-- glam `Vec3::reject_from`: `self - self.project_onto(rhs)`. -/
noncomputable def reject_from (v rhs : Vec3F) : Vec3F :=
  sub v (project_onto v rhs)

/-- glam `Vec3::lerp`: `self + ((rhs - self) * s)`. -/
noncomputable def lerp (v rhs : Vec3F) (s : F) : Vec3F :=
  add v (smul (sub rhs v) s)

end Vec3F

/-- Inject three exact real coordinates into a `Vec3F` (finite vector). -/
def v3 (x y z : ℝ) : Vec3F := ⟨F.fin x, F.fin y, F.fin z⟩

/-- `const PLAYER_SPEED: f32 = 200.;` -/
def PLAYER_SPEED : ℝ := 200

/-- `const CAM_LERP_FACTOR: f32 = 2.;` -/
def CAM_LERP_FACTOR : ℝ := 2

/-- `const COLLISION_RADIUS: f32 = 25.;` -/
def COLLISION_RADIUS : ℝ := 25

/-- Lines 125–133 of `move_player`: build the raw input direction from the
held keys (`KeyA` subtracts 1 from `x`, `KeyD` adds 1 to `x`). -/
def direction (a_pressed d_pressed : Bool) : Vec2F :=
  let dir : Vec2F := ⟨F.fin 0, F.fin 0⟩
  let dir := if a_pressed then { dir with x := F.sub dir.x (F.fin 1) } else dir
  let dir := if d_pressed then { dir with x := F.add dir.x (F.fin 1) } else dir
  dir

/-- Line 135: `direction.normalize_or_zero() * PLAYER_SPEED * time.delta_seconds()`. -/
noncomputable def move_delta (a_pressed d_pressed : Bool) (dt : F) : Vec2F :=
  Vec2F.smul (Vec2F.smul (Vec2F.normalize_or_zero (direction a_pressed d_pressed))
    (F.fin PLAYER_SPEED)) dt

/-- Lines 125–151 of `move_player`: given the held keys, the frame time, the
player and opponent translations and both collision radii, return the
player's committed translation for this tick. -/
noncomputable def move_player (a_pressed d_pressed : Bool) (dt : F)
    (player_translation opponent_translation : Vec3F)
    (player_radius opponent_radius : F) : Vec3F :=
  let md := move_delta a_pressed d_pressed dt
  let new_position := Vec3F.add player_translation (Vec2F.extend md (F.fin 0))
  let distance := Vec3F.distance new_position opponent_translation
  let min_distance := F.add player_radius opponent_radius
  if F.ge distance min_distance then
    new_position
  else
    let direction_to_opponent :=
      Vec3F.normalize (Vec3F.sub opponent_translation player_translation)
    let max_movement := F.max (F.sub distance min_distance) (F.fin 0)
    let safe_move :=
      Vec3F.smul (Vec3F.reject_from (Vec2F.extend md (F.fin 0)) direction_to_opponent)
        (F.div max_movement (Vec2F.length md))
    Vec3F.add player_translation safe_move

/-- Lines 101–107 of `update_camera`: the camera lerps toward the player's
position offset by 150 in `y`, keeping its own `z`, with interpolation
factor `time.delta_seconds() * CAM_LERP_FACTOR`. -/
noncomputable def update_camera (camera_translation player_translation : Vec3F)
    (dt : F) : Vec3F :=
  let dir := Vec3F.mk player_translation.x
    (F.add player_translation.y (F.fin 150)) camera_translation.z
  Vec3F.lerp camera_translation dir (F.mul dt (F.fin CAM_LERP_FACTOR))

/-- The per-tick entity store: at most one player (translation and collidable
radius), one opponent, and one camera, any of which may be absent. -/
structure World where
  player : Option (Vec3F × F)
  opponent : Option (Vec3F × F)
  camera : Option Vec3F

/-- The `move_player` system: lines 117–123 early-return (`get_single`)
when the player or the opponent is missing, otherwise the player's
translation is updated by `move_player`. -/
noncomputable def move_player_sys (w : World) (a_pressed d_pressed : Bool)
    (dt : F) : World :=
  match w.player, w.opponent with
  | some (pt, pr), some (ot, orad) =>
      { w with player := some (move_player a_pressed d_pressed dt pt ot pr orad, pr) }
  | _, _ => w

/-- The `update_camera` system: lines 93–99 early-return (`get_single`) when
the camera or the player is missing, otherwise the camera's translation is
updated by `update_camera`. -/
noncomputable def update_camera_sys (w : World) (dt : F) : World :=
  match w.camera, w.player with
  | some c, some (pt, _) => { w with camera := some (update_camera c pt dt) }
  | _, _ => w

/-! ## Evaluation lemmas -/

/-- Real value of the summed key contributions: `-1` for `A`, `+1` for `D`.
Since its absolute value is `0` or `1`, it is also the value of the
normalized direction's `x` component. -/
def dirR (a_pressed d_pressed : Bool) : ℝ :=
  (if a_pressed then (0:ℝ) - 1 else 0) + (if d_pressed then 1 else 0)

lemma direction_eval (a d : Bool) :
    direction a d = ⟨F.fin (dirR a d), F.fin 0⟩ := by
  rcases a <;> rcases d <;> simp [direction, dirR]

lemma move_delta_eval (a d : Bool) (dt : ℝ) :
    move_delta a d (F.fin dt) = ⟨F.fin (dirR a d * 200 * dt), F.fin 0⟩ := by
  rcases a <;> rcases d <;>
    simp [move_delta, direction, dirR, Vec2F.normalize_or_zero, Vec2F.length_recip,
      Vec2F.length, Vec2F.dot, Vec2F.smul, PLAYER_SPEED, F.sqrt, F.recip, F.div,
      F.gt, Real.sqrt_one] <;>
    norm_num

lemma add_v3 (a1 a2 a3 b1 b2 b3 : ℝ) :
    Vec3F.add (v3 a1 a2 a3) (v3 b1 b2 b3) = v3 (a1 + b1) (a2 + b2) (a3 + b3) := rfl

lemma sub_v3 (a1 a2 a3 b1 b2 b3 : ℝ) :
    Vec3F.sub (v3 a1 a2 a3) (v3 b1 b2 b3) = v3 (a1 - b1) (a2 - b2) (a3 - b3) := by
  simp [Vec3F.sub, v3]

lemma smul_v3 (a1 a2 a3 s : ℝ) :
    Vec3F.smul (v3 a1 a2 a3) (F.fin s) = v3 (a1 * s) (a2 * s) (a3 * s) := rfl

lemma dot_v3 (a1 a2 a3 b1 b2 b3 : ℝ) :
    Vec3F.dot (v3 a1 a2 a3) (v3 b1 b2 b3) = F.fin (a1*b1 + a2*b2 + a3*b3) := rfl

lemma v3_injEq (a1 a2 a3 b1 b2 b3 : ℝ) :
    v3 a1 a2 a3 = v3 b1 b2 b3 ↔ a1 = b1 ∧ a2 = b2 ∧ a3 = b3 := by
  simp [v3, Vec3F.mk.injEq]

lemma distance_v3 (a1 a2 a3 b1 b2 b3 : ℝ) :
    Vec3F.distance (v3 a1 a2 a3) (v3 b1 b2 b3) =
      F.fin (Real.sqrt ((a1 - b1)^2 + (a2 - b2)^2 + (a3 - b3)^2)) := by
  have h : (a1-b1)*(a1-b1) + (a2-b2)*(a2-b2) + (a3-b3)*(a3-b3)
      = (a1 - b1)^2 + (a2 - b2)^2 + (a3 - b3)^2 := by ring
  rw [Vec3F.distance, sub_v3, Vec3F.length, dot_v3, h,
    F.sqrt_fin _ (by positivity)]

lemma length_v2 (m : ℝ) :
    Vec2F.length ⟨F.fin m, F.fin 0⟩ = F.fin |m| := by
  have h : m*m + 0*0 = m^2 := by ring
  rw [Vec2F.length, Vec2F.dot]
  simp only [F.mul_fin, F.add_fin, h]
  rw [F.sqrt_fin _ (by positivity), Real.sqrt_sq_eq_abs]

lemma normalize_v3 (u1 u2 u3 : ℝ) (h : 0 < u1*u1 + u2*u2 + u3*u3) :
    Vec3F.normalize (v3 u1 u2 u3) =
      v3 (u1 * (1 / Real.sqrt (u1*u1 + u2*u2 + u3*u3)))
         (u2 * (1 / Real.sqrt (u1*u1 + u2*u2 + u3*u3)))
         (u3 * (1 / Real.sqrt (u1*u1 + u2*u2 + u3*u3))) := by
  rw [Vec3F.normalize, Vec3F.length_recip, Vec3F.length, dot_v3,
    F.sqrt_fin _ h.le, F.recip_fin _ (Real.sqrt_ne_zero'.mpr h), smul_v3]

lemma reject_from_v3 (a1 a2 a3 w1 w2 w3 : ℝ) (hw : w1*w1 + w2*w2 + w3*w3 ≠ 0) :
    Vec3F.reject_from (v3 a1 a2 a3) (v3 w1 w2 w3) =
      v3 (a1 - w1 * (a1*w1 + a2*w2 + a3*w3) * (1/(w1*w1 + w2*w2 + w3*w3)))
         (a2 - w2 * (a1*w1 + a2*w2 + a3*w3) * (1/(w1*w1 + w2*w2 + w3*w3)))
         (a3 - w3 * (a1*w1 + a2*w2 + a3*w3) * (1/(w1*w1 + w2*w2 + w3*w3))) := by
  rw [Vec3F.reject_from, Vec3F.project_onto, dot_v3, dot_v3,
    F.recip_fin _ hw, smul_v3, smul_v3, sub_v3]

lemma move_player_caseA (a d : Bool) (dt px py pz ox oy oz rp ro : ℝ)
    (h : rp + ro ≤
      Real.sqrt ((px + dirR a d * 200 * dt - ox)^2 + (py - oy)^2 + (pz - oz)^2)) :
    move_player a d (F.fin dt) (v3 px py pz) (v3 ox oy oz) (F.fin rp) (F.fin ro)
      = v3 (px + dirR a d * 200 * dt) py pz := by
  rw [move_player, move_delta_eval]
  show (if F.ge (Vec3F.distance (Vec3F.add (v3 px py pz)
      (Vec2F.extend ⟨F.fin (dirR a d * 200 * dt), F.fin 0⟩ (F.fin 0)))
      (v3 ox oy oz)) (F.add (F.fin rp) (F.fin ro)) = true then _ else _) = _
  rw [show Vec2F.extend ⟨F.fin (dirR a d * 200 * dt), F.fin 0⟩ (F.fin 0)
      = v3 (dirR a d * 200 * dt) 0 0 from rfl, add_v3]
  norm_num [distance_v3]
  intro hlt
  exact absurd h (not_le.mpr hlt)

lemma move_player_collision (a d : Bool) (dt px py pz ox oy oz rp ro : ℝ)
    (hm : dirR a d * 200 * dt ≠ 0)
    (hS : 0 < (ox - px)*(ox - px) + (oy - py)*(oy - py) + (oz - pz)*(oz - pz))
    (hcol : Real.sqrt ((px + dirR a d * 200 * dt - ox)^2 + (py - oy)^2 + (pz - oz)^2)
      < rp + ro) :
    move_player a d (F.fin dt) (v3 px py pz) (v3 ox oy oz) (F.fin rp) (F.fin ro)
      = v3 px py pz := by
  have hsum : ((ox - px) * (1 / Real.sqrt ((ox - px)*(ox - px) + (oy - py)*(oy - py) + (oz - pz)*(oz - pz))))
        * ((ox - px) * (1 / Real.sqrt ((ox - px)*(ox - px) + (oy - py)*(oy - py) + (oz - pz)*(oz - pz))))
      + ((oy - py) * (1 / Real.sqrt ((ox - px)*(ox - px) + (oy - py)*(oy - py) + (oz - pz)*(oz - pz))))
        * ((oy - py) * (1 / Real.sqrt ((ox - px)*(ox - px) + (oy - py)*(oy - py) + (oz - pz)*(oz - pz))))
      + ((oz - pz) * (1 / Real.sqrt ((ox - px)*(ox - px) + (oy - py)*(oy - py) + (oz - pz)*(oz - pz))))
        * ((oz - pz) * (1 / Real.sqrt ((ox - px)*(ox - px) + (oy - py)*(oy - py) + (oz - pz)*(oz - pz))))
      = 1 := by
    have h1 : Real.sqrt ((ox - px)*(ox - px) + (oy - py)*(oy - py) + (oz - pz)*(oz - pz))
        * Real.sqrt ((ox - px)*(ox - px) + (oy - py)*(oy - py) + (oz - pz)*(oz - pz))
        = (ox - px)*(ox - px) + (oy - py)*(oy - py) + (oz - pz)*(oz - pz) :=
      Real.mul_self_sqrt hS.le
    field_simp
  rw [move_player, move_delta_eval]
  show (if F.ge (Vec3F.distance (Vec3F.add (v3 px py pz)
      (Vec2F.extend ⟨F.fin (dirR a d * 200 * dt), F.fin 0⟩ (F.fin 0)))
      (v3 ox oy oz)) (F.add (F.fin rp) (F.fin ro)) = true then _ else _) = _
  rw [show Vec2F.extend ⟨F.fin (dirR a d * 200 * dt), F.fin 0⟩ (F.fin 0)
      = v3 (dirR a d * 200 * dt) 0 0 from rfl, add_v3]
  simp only [add_zero, distance_v3, F.add_fin]
  rw [F.ge_fin_false _ _ hcol]
  simp only [Bool.false_eq_true, if_false]
  rw [sub_v3, normalize_v3 _ _ _ hS, reject_from_v3 _ _ _ _ _ _ (by rw [hsum]; norm_num),
    F.sub_fin, F.max_fin, show (Real.sqrt ((px + dirR a d * 200 * dt - ox)^2
      + (py - oy)^2 + (pz - oz)^2) - (rp + ro)) ⊔ 0 = 0 from
      sup_eq_right.mpr (by linarith), length_v2,
    F.div_fin _ _ (abs_ne_zero.mpr hm), zero_div, smul_v3, add_v3]
  norm_num [v3_injEq]

lemma sqrt_eval (a b : ℝ) (ha : 0 ≤ a) (h : a^2 = b) : Real.sqrt b = a := by
  rw [← h, Real.sqrt_sq ha]

/-- Evaluation of the spec's concrete scenario: player `(0,0,0)`, opponent
`(150,0,0)`, radii `25`, `dt = 1`, move-right input. The candidate is
`(200,0,0)`, whose distance to the opponent is `50 = min_distance`, so the
no-collision branch commits the raw candidate. -/
lemma scenario1_eval :
    move_player false true (F.fin 1) (v3 0 0 0) (v3 150 0 0) (F.fin 25) (F.fin 25)
      = v3 200 0 0 := by
  have h := move_player_caseA false true 1 0 0 0 150 0 0 25 25 (by
    rw [show ((0:ℝ) + dirR false true * 200 * 1 - 150)^2 + ((0:ℝ) - 0)^2
        + ((0:ℝ) - 0)^2 = 2500 by norm_num [dirR],
      sqrt_eval 50 2500 (by norm_num) (by norm_num)]
    norm_num)
  rw [h, v3_injEq]
  norm_num [dirR]

/-! ## Claims -/

/-- C1, counterexample: in the spec's concrete scenario (player `(0,0)`,
opponent `(150,0)`, radii `25`, speed `200`, `dt = 1`, move-right input) the
resolved position is NOT `(100,0)` as the claim states. -/
theorem C1_counterexample :
    move_player false true (F.fin 1) (v3 0 0 0) (v3 150 0 0) (F.fin 25) (F.fin 25)
      ≠ v3 100 0 0 := by
  intro h
  rw [scenario1_eval, v3_injEq] at h
  norm_num at h

/-- C1, amended: in that scenario the resolved position is the raw candidate
`(200,0)`: the candidate's distance to the opponent is exactly `min_distance`,
so no collision is detected and the candidate is committed — the player jumps
past the opponent instead of stopping at `(100,0)`. -/
theorem C1_amended :
    move_player false true (F.fin 1) (v3 0 0 0) (v3 150 0 0) (F.fin 25) (F.fin 25)
      = v3 200 0 0 :=
  scenario1_eval

/-- C2, counterexample: a single tick from a legal state (pre-tick distance
`150 ≥ min_distance`) commits `(200,0,0)`; the post-tick distance `50` is
legal, yet the point at parameter `3/4` of the straight-line motion is the
opponent's own center (distance `0 < min_distance`): the player passes
straight through the opponent inside one tick. -/
theorem C2_counterexample :
    move_player false true (F.fin 1) (v3 0 0 0) (v3 150 0 0) (F.fin 25) (F.fin 25)
      = v3 200 0 0
    ∧ F.ge (Vec3F.distance (v3 0 0 0) (v3 150 0 0)) (F.add (F.fin 25) (F.fin 25)) = true
    ∧ (0:ℝ) ≤ 3/4 ∧ (3/4:ℝ) ≤ 1
    ∧ v3 (0 + 3/4 * (200 - 0)) (0 + 3/4 * (0 - 0)) (0 + 3/4 * (0 - 0)) = v3 150 0 0
    ∧ F.ge (Vec3F.distance (v3 150 0 0) (v3 150 0 0)) (F.add (F.fin 25) (F.fin 25)) = false := by
  refine ⟨scenario1_eval, ?_, by norm_num, by norm_num, by rw [v3_injEq]; norm_num, ?_⟩
  · rw [distance_v3, show ((0:ℝ) - 150)^2 + ((0:ℝ) - 0)^2 + ((0:ℝ) - 0)^2 = 22500 by norm_num,
      sqrt_eval 150 22500 (by norm_num) (by norm_num), F.add_fin]
    rw [F.ge_fin]
    norm_num
  · rw [distance_v3, show ((150:ℝ) - 150)^2 + ((0:ℝ) - 0)^2 + ((0:ℝ) - 0)^2 = 0 by norm_num,
      Real.sqrt_zero, F.add_fin]
    exact F.ge_fin_false _ _ (by norm_num)

/-- C2, amended: the invariant holds at tick boundaries — from any state with
pre-tick center distance at least `min_distance = rp + ro > 0`, the committed
post-tick distance is again at least `min_distance` (in the no-collision
branch the candidate satisfies the check; in the collision branch the slide
is zero and the player does not move). Passing through the opponent within a
single large tick remains possible (no swept collision), as the
counterexample shows. -/
theorem C2_no_tunnel_at_tick_boundaries (a d : Bool) (dt px py pz ox oy oz rp ro : ℝ)
    (hr : 0 < rp + ro)
    (hpre : rp + ro ≤ Real.sqrt ((px - ox)^2 + (py - oy)^2 + (pz - oz)^2)) :
    ∃ q1 q2 q3 : ℝ,
      move_player a d (F.fin dt) (v3 px py pz) (v3 ox oy oz) (F.fin rp) (F.fin ro)
        = v3 q1 q2 q3
      ∧ rp + ro ≤ Real.sqrt ((q1 - ox)^2 + (q2 - oy)^2 + (q3 - oz)^2) := by
  by_cases hA : rp + ro ≤
      Real.sqrt ((px + dirR a d * 200 * dt - ox)^2 + (py - oy)^2 + (pz - oz)^2)
  · exact ⟨_, _, _, move_player_caseA a d dt px py pz ox oy oz rp ro hA, hA⟩
  · push_neg at hA
    have hm : dirR a d * 200 * dt ≠ 0 := by
      intro h0
      rw [h0, add_zero] at hA
      exact absurd hpre (not_le.mpr hA)
    have hS : 0 < (ox - px)*(ox - px) + (oy - py)*(oy - py) + (oz - pz)*(oz - pz) := by
      rcases lt_or_eq_of_le (add_nonneg (add_nonneg (mul_self_nonneg (ox - px))
          (mul_self_nonneg (oy - py))) (mul_self_nonneg (oz - pz))) with h | h
      · exact h
      · exfalso
        have hz : (px - ox)^2 + (py - oy)^2 + (pz - oz)^2 = 0 := by nlinarith [h]
        rw [hz, Real.sqrt_zero] at hpre
        exact absurd hpre (not_le.mpr hr)
    exact ⟨px, py, pz,
      move_player_collision a d dt px py pz ox oy oz rp ro hm hS hA, hpre⟩

/-- C2, witness: the amended theorem applied to the concrete legal scenario. -/
theorem C2_witness :
    (0:ℝ) < 25 + 25
    ∧ (25:ℝ) + 25 ≤ Real.sqrt ((0 - 150)^2 + (0 - 0)^2 + (0 - 0)^2)
    ∧ ∃ q1 q2 q3 : ℝ,
        move_player false true (F.fin 1) (v3 0 0 0) (v3 150 0 0) (F.fin 25) (F.fin 25)
          = v3 q1 q2 q3
        ∧ 25 + 25 ≤ Real.sqrt ((q1 - 150)^2 + (q2 - 0)^2 + (q3 - 0)^2) := by
  have hpre : (25:ℝ) + 25 ≤ Real.sqrt ((0 - 150)^2 + (0 - 0)^2 + (0 - 0)^2) := by
    rw [show ((0:ℝ) - 150)^2 + ((0:ℝ) - 0)^2 + ((0:ℝ) - 0)^2 = 22500 by norm_num,
      sqrt_eval 150 22500 (by norm_num) (by norm_num)]
    norm_num
  exact ⟨by norm_num, hpre,
    C2_no_tunnel_at_tick_boundaries false true 1 0 0 0 150 0 0 25 25 (by norm_num) hpre⟩

/-- C10: whenever the tick takes the collision branch (candidate distance
below `min_distance`) with a nonzero movement delta (exactly one key held,
`dt ≠ 0`) and distinct player/opponent centers, the committed position equals
the pre-move position, and the scaling budget
`max(0, candidate_distance - min_distance)` is `0` in that branch: no sliding
motion ever occurs. -/
theorem C10_collision_branch_freezes_player (a d : Bool)
    (dt px py pz ox oy oz rp ro : ℝ)
    (had : a ≠ d) (hdt : dt ≠ 0)
    (hS : 0 < (ox - px)*(ox - px) + (oy - py)*(oy - py) + (oz - pz)*(oz - pz))
    (hcol : Real.sqrt ((px + dirR a d * 200 * dt - ox)^2 + (py - oy)^2 + (pz - oz)^2)
      < rp + ro) :
    move_player a d (F.fin dt) (v3 px py pz) (v3 ox oy oz) (F.fin rp) (F.fin ro)
      = v3 px py pz
    ∧ (Real.sqrt ((px + dirR a d * 200 * dt - ox)^2 + (py - oy)^2 + (pz - oz)^2)
        - (rp + ro)) ⊔ 0 = 0 := by
  have hd1 : dirR a d = 1 ∨ dirR a d = -1 := by
    rcases a <;> rcases d
    · exact absurd rfl had
    · left; norm_num [dirR]
    · right; norm_num [dirR]
    · exact absurd rfl had
  have hm : dirR a d * 200 * dt ≠ 0 := by
    rcases hd1 with h | h <;> rw [h] <;> norm_num [hdt]
  exact ⟨move_player_collision a d dt px py pz ox oy oz rp ro hm hS hcol,
    sup_eq_right.mpr (by linarith)⟩

/-- C10, witness: player `(10,0,2)`, opponent `(100,0,2)`, move-right,
`dt = 1/2`: the candidate `(110,0,2)` is 10 from the opponent (collision),
and the tick commits the unchanged position `(10,0,2)`. -/
theorem C10_witness :
    (false ≠ true) ∧ ((1:ℝ)/2 ≠ 0)
    ∧ (0:ℝ) < (100 - 10)*(100 - 10) + (0 - 0)*(0 - 0) + (2 - 2)*(2 - 2)
    ∧ Real.sqrt ((10 + dirR false true * 200 * (1/2) - 100)^2 + ((0:ℝ) - 0)^2
        + ((2:ℝ) - 2)^2) < 25 + 25
    ∧ (move_player false true (F.fin (1/2)) (v3 10 0 2) (v3 100 0 2)
        (F.fin 25) (F.fin 25) = v3 10 0 2
      ∧ (Real.sqrt ((10 + dirR false true * 200 * (1/2) - 100)^2 + ((0:ℝ) - 0)^2
          + ((2:ℝ) - 2)^2) - (25 + 25)) ⊔ 0 = 0) := by
  have hcol : Real.sqrt ((10 + dirR false true * 200 * (1/2) - 100)^2 + ((0:ℝ) - 0)^2
      + ((2:ℝ) - 2)^2) < 25 + 25 := by
    rw [show ((10:ℝ) + dirR false true * 200 * (1/2) - 100)^2 + ((0:ℝ) - 0)^2
        + ((2:ℝ) - 2)^2 = 100 by norm_num [dirR],
      sqrt_eval 10 100 (by norm_num) (by norm_num)]
    norm_num
  exact ⟨by norm_num, by norm_num, by norm_num, hcol,
    C10_collision_branch_freezes_player false true (1/2) 10 0 2 100 0 2 25 25
      (by norm_num) (by norm_num) (by norm_num) hcol⟩

/-- C3: the scaling budget is computed from the CANDIDATE distance, not the
pre-move distance. Player `(0,0,0)`, opponent `(150,0,0)`, move-right,
`dt = 3/5`: the candidate is `(120,0,0)` at distance `30 < 50` (collision).
The code's line-148 budget `max(0, |candidate - O| - min_distance)` is `0`
and the tick commits the unchanged position, although the claim's pre-move
formula `max(0, |P - O| - min_distance) = 100` is positive (there is approach
room the code never uses). -/
theorem C3_budget_uses_candidate_distance :
    move_player false true (F.fin (3/5)) (v3 0 0 0) (v3 150 0 0) (F.fin 25) (F.fin 25)
      = v3 0 0 0
    ∧ F.max (F.sub (Vec3F.distance (v3 120 0 0) (v3 150 0 0))
        (F.add (F.fin 25) (F.fin 25))) (F.fin 0) = F.fin 0
    ∧ (0:ℝ) < (Real.sqrt ((0 - 150)^2 + (0 - 0)^2 + (0 - 0)^2) - (25 + 25)) ⊔ 0 := by
  refine ⟨?_, ?_, ?_⟩
  · apply move_player_collision false true (3/5) 0 0 0 150 0 0 25 25
    · norm_num [dirR]
    · norm_num
    · rw [show ((0:ℝ) + dirR false true * 200 * (3/5) - 150)^2 + ((0:ℝ) - 0)^2
          + ((0:ℝ) - 0)^2 = 900 by norm_num [dirR],
        sqrt_eval 30 900 (by norm_num) (by norm_num)]
      norm_num
  · rw [distance_v3, show ((120:ℝ) - 150)^2 + ((0:ℝ) - 0)^2 + ((0:ℝ) - 0)^2 = 900 by norm_num,
      sqrt_eval 30 900 (by norm_num) (by norm_num), F.add_fin, F.sub_fin, F.max_fin]
    norm_num
  · rw [show ((0:ℝ) - 150)^2 + ((0:ℝ) - 0)^2 + ((0:ℝ) - 0)^2 = 22500 by norm_num,
      sqrt_eval 150 22500 (by norm_num) (by norm_num)]
    norm_num

/-- C4: a collision tick whose delta has a nonzero component perpendicular to
the player-to-opponent direction still commits a zero displacement. Player
`(0,0,0)`, opponent `(60,45,0)`, move-right, `dt = 3/10`: the candidate
`(60,0,0)` is at distance `45 < 50` (collision), the rejection of the delta
`(60,0,0)` from the opponent direction is `(108/5, -144/5, 0) ≠ 0`, yet the
committed position is the unchanged `(0,0,0)` — the perpendicular component
is wiped out, contradicting the claim. -/
theorem C4_no_lateral_slide :
    move_player false true (F.fin (3/10)) (v3 0 0 0) (v3 60 45 0) (F.fin 25) (F.fin 25)
      = v3 0 0 0
    ∧ Real.sqrt ((0 + dirR false true * 200 * (3/10) - 60)^2 + ((0:ℝ) - 45)^2
        + ((0:ℝ) - 0)^2) < 25 + 25
    ∧ Vec3F.reject_from (v3 60 0 0)
        (Vec3F.normalize (Vec3F.sub (v3 60 45 0) (v3 0 0 0))) = v3 (108/5) (-144/5) 0
    ∧ v3 (108/5) (-144/5) 0 ≠ v3 0 0 0 := by
  have hcol : Real.sqrt ((0 + dirR false true * 200 * (3/10) - 60)^2 + ((0:ℝ) - 45)^2
      + ((0:ℝ) - 0)^2) < 25 + 25 := by
    rw [show ((0:ℝ) + dirR false true * 200 * (3/10) - 60)^2 + ((0:ℝ) - 45)^2
        + ((0:ℝ) - 0)^2 = 2025 by norm_num [dirR],
      sqrt_eval 45 2025 (by norm_num) (by norm_num)]
    norm_num
  have hsub : Vec3F.sub (v3 60 45 0) (v3 0 0 0) = v3 60 45 0 := by
    rw [sub_v3]; norm_num
  have hS : (0:ℝ) < 60*60 + 45*45 + 0*0 := by norm_num
  have hnorm : Vec3F.normalize (v3 60 45 0) = v3 (4/5) (3/5) 0 := by
    rw [normalize_v3 _ _ _ hS, show (60:ℝ)*60 + 45*45 + 0*0 = 5625 by norm_num,
      sqrt_eval 75 5625 (by norm_num) (by norm_num), v3_injEq]
    norm_num
  have hrej : Vec3F.reject_from (v3 60 0 0) (v3 (4/5) (3/5) 0) = v3 (108/5) (-144/5) 0 := by
    rw [reject_from_v3 _ _ _ _ _ _ (by norm_num), v3_injEq]
    norm_num
  refine ⟨?_, hcol, ?_, ?_⟩
  · exact move_player_collision false true (3/10) 0 0 0 60 45 0 25 25
      (by norm_num [dirR]) (by norm_num) hcol
  · rw [hsub, hnorm]; exact hrej
  · intro h
    rw [v3_injEq] at h
    norm_num at h

/-- With zero movement delta and an already-overlapping (but not coincident)
opponent, the collision branch computes `0.0 / 0.0 = NaN` as its scale factor
and commits a `NaN` position. -/
lemma move_player_zero_delta_overlap_nan (a d : Bool) (dt px py pz ox oy oz rp ro : ℝ)
    (hzero : dirR a d * 200 * dt = 0)
    (hS : 0 < (ox - px)*(ox - px) + (oy - py)*(oy - py) + (oz - pz)*(oz - pz))
    (hcol : Real.sqrt ((px - ox)^2 + (py - oy)^2 + (pz - oz)^2) < rp + ro) :
    move_player a d (F.fin dt) (v3 px py pz) (v3 ox oy oz) (F.fin rp) (F.fin ro)
      = ⟨F.nan, F.nan, F.nan⟩ := by
  have hsum : ((ox - px) * (1 / Real.sqrt ((ox - px)*(ox - px) + (oy - py)*(oy - py) + (oz - pz)*(oz - pz))))
        * ((ox - px) * (1 / Real.sqrt ((ox - px)*(ox - px) + (oy - py)*(oy - py) + (oz - pz)*(oz - pz))))
      + ((oy - py) * (1 / Real.sqrt ((ox - px)*(ox - px) + (oy - py)*(oy - py) + (oz - pz)*(oz - pz))))
        * ((oy - py) * (1 / Real.sqrt ((ox - px)*(ox - px) + (oy - py)*(oy - py) + (oz - pz)*(oz - pz))))
      + ((oz - pz) * (1 / Real.sqrt ((ox - px)*(ox - px) + (oy - py)*(oy - py) + (oz - pz)*(oz - pz))))
        * ((oz - pz) * (1 / Real.sqrt ((ox - px)*(ox - px) + (oy - py)*(oy - py) + (oz - pz)*(oz - pz))))
      = 1 := by
    have h1 : Real.sqrt ((ox - px)*(ox - px) + (oy - py)*(oy - py) + (oz - pz)*(oz - pz))
        * Real.sqrt ((ox - px)*(ox - px) + (oy - py)*(oy - py) + (oz - pz)*(oz - pz))
        = (ox - px)*(ox - px) + (oy - py)*(oy - py) + (oz - pz)*(oz - pz) :=
      Real.mul_self_sqrt hS.le
    field_simp
  rw [move_player, move_delta_eval, hzero]
  show (if F.ge (Vec3F.distance (Vec3F.add (v3 px py pz)
      (Vec2F.extend ⟨F.fin (0:ℝ), F.fin 0⟩ (F.fin 0)))
      (v3 ox oy oz)) (F.add (F.fin rp) (F.fin ro)) = true then _ else _) = _
  rw [show Vec2F.extend ⟨F.fin (0:ℝ), F.fin 0⟩ (F.fin 0) = v3 0 0 0 from rfl, add_v3]
  simp only [add_zero, distance_v3, F.add_fin]
  rw [F.ge_fin_false _ _ hcol]
  simp only [Bool.false_eq_true, if_false]
  rw [sub_v3, normalize_v3 _ _ _ hS,
    reject_from_v3 _ _ _ _ _ _ (by rw [hsum]; norm_num),
    F.sub_fin, F.max_fin, show (Real.sqrt ((px - ox)^2 + (py - oy)^2 + (pz - oz)^2)
      - (rp + ro)) ⊔ 0 = 0 from sup_eq_right.mpr (by linarith), length_v2, abs_zero,
    F.div_zero_zero]
  simp [Vec3F.smul, Vec3F.add, v3]

/-- With coincident player/opponent centers, `normalize` of the zero vector
is `0 * ∞ = NaN` in every component, and the `NaN` propagates through the
rejection into the committed position. -/
lemma move_player_coincident_nan :
    move_player false true (F.fin (1/10)) (v3 5 5 0) (v3 5 5 0) (F.fin 25) (F.fin 25)
      = ⟨F.nan, F.nan, F.nan⟩ := by
  rw [move_player, move_delta_eval,
    show dirR false true * 200 * ((1:ℝ)/10) = 20 by norm_num [dirR]]
  show (if F.ge (Vec3F.distance (Vec3F.add (v3 5 5 0)
      (Vec2F.extend ⟨F.fin (20:ℝ), F.fin 0⟩ (F.fin 0)))
      (v3 5 5 0)) (F.add (F.fin 25) (F.fin 25)) = true then _ else _) = _
  rw [show Vec2F.extend ⟨F.fin (20:ℝ), F.fin 0⟩ (F.fin 0) = v3 20 0 0 from rfl, add_v3]
  rw [show v3 ((5:ℝ) + 20) (5 + 0) (0 + 0) = v3 25 5 0 by rw [v3_injEq]; norm_num]
  rw [distance_v3, show ((25:ℝ) - 5)^2 + ((5:ℝ) - 5)^2 + ((0:ℝ) - 0)^2 = 400 by norm_num,
    sqrt_eval 20 400 (by norm_num) (by norm_num), F.add_fin,
    F.ge_fin_false _ _ (by norm_num)]
  simp only [Bool.false_eq_true, if_false]
  rw [sub_v3]
  rw [show Vec3F.normalize (v3 ((5:ℝ) - 5) (5 - 5) (0 - 0)) = ⟨F.nan, F.nan, F.nan⟩ by
    rw [show v3 ((5:ℝ) - 5) (5 - 5) (0 - 0) = v3 0 0 0 by rw [v3_injEq]; norm_num]
    rw [Vec3F.normalize, Vec3F.length_recip, Vec3F.length, dot_v3,
      show (0:ℝ)*0 + 0*0 + 0*0 = 0 by norm_num, F.sqrt_fin 0 le_rfl, Real.sqrt_zero,
      F.recip_zero]
    simp [Vec3F.smul, v3]]
  rw [F.sub_fin, F.max_fin,
    show ((20:ℝ) - (25 + 25)) ⊔ 0 = 0 from sup_eq_right.mpr (by norm_num),
    length_v2, show |(20:ℝ)| = 20 from abs_of_pos (by norm_num),
    F.div_fin _ _ (by norm_num), zero_div]
  simp [Vec3F.reject_from, Vec3F.project_onto, Vec3F.dot, Vec3F.smul, Vec3F.sub,
    Vec3F.add, v3]

/-- C5, counterexample: the collision-resolution arithmetic is NOT guarded.
With zero movement delta (no key held) and an overlapping opponent, the scale
factor is `0.0 / 0.0 = NaN` (not `0`), and with coincident centers the
position is not left unchanged: in both degenerate cases `NaN` propagates
into the committed player position. -/
theorem C5_counterexample :
    F.div (F.fin 0) (F.fin 0) ≠ F.fin 0
    ∧ move_player false false (F.fin 1) (v3 0 0 0) (v3 20 0 0) (F.fin 25) (F.fin 25)
        ≠ v3 0 0 0
    ∧ move_player false true (F.fin (1/10)) (v3 5 5 0) (v3 5 5 0) (F.fin 25) (F.fin 25)
        ≠ v3 5 5 0 := by
  refine ⟨by rw [F.div_zero_zero]; exact F.nan_ne_fin 0, ?_, ?_⟩
  · intro h
    rw [move_player_zero_delta_overlap_nan false false 1 0 0 0 20 0 0 25 25
      (by norm_num [dirR]) (by norm_num) (by
        rw [show ((0:ℝ) - 20)^2 + ((0:ℝ) - 0)^2 + ((0:ℝ) - 0)^2 = 400 by norm_num,
          sqrt_eval 20 400 (by norm_num) (by norm_num)]
        norm_num)] at h
    exact F.nan_ne_fin 0 (congrArg Vec3F.x h)
  · intro h
    rw [move_player_coincident_nan] at h
    exact F.nan_ne_fin 5 (congrArg Vec3F.x h)

/-- C5, amended: the code has no division-by-zero guard. When the movement
delta has zero length the collision-branch scale factor is `0.0/0.0 = NaN`,
and when the centers coincide `normalize` of the zero vector is `NaN`; in
both degenerate cases the committed player position is `NaN` in every
component rather than a finite value. -/
theorem C5_amended :
    move_player false false (F.fin 1) (v3 0 0 0) (v3 20 0 0) (F.fin 25) (F.fin 25)
      = ⟨F.nan, F.nan, F.nan⟩
    ∧ move_player false true (F.fin (1/10)) (v3 5 5 0) (v3 5 5 0) (F.fin 25) (F.fin 25)
      = ⟨F.nan, F.nan, F.nan⟩ := by
  refine ⟨?_, move_player_coincident_nan⟩
  exact move_player_zero_delta_overlap_nan false false 1 0 0 0 20 0 0 25 25
    (by norm_num [dirR]) (by norm_num) (by
      rw [show ((0:ℝ) - 20)^2 + ((0:ℝ) - 0)^2 + ((0:ℝ) - 0)^2 = 400 by norm_num,
        sqrt_eval 20 400 (by norm_num) (by norm_num)]
      norm_num)

/-- C7, counterexample: with zero input direction the tick does NOT always
leave the player position unchanged. From an overlapping state (player
`(0,0,0)`, opponent `(30,0,0)`, distance `30 < 50`) with no key held, the
collision branch divides `0.0/0.0` and the committed position is `NaN`, not
the original position. -/
theorem C7_counterexample :
    move_player false false (F.fin 2) (v3 0 0 0) (v3 30 0 0) (F.fin 25) (F.fin 25)
      ≠ v3 0 0 0 := by
  intro h
  rw [move_player_zero_delta_overlap_nan false false 2 0 0 0 30 0 0 25 25
    (by norm_num [dirR]) (by norm_num) (by
      rw [show ((0:ℝ) - 30)^2 + ((0:ℝ) - 0)^2 + ((0:ℝ) - 0)^2 = 900 by norm_num,
        sqrt_eval 30 900 (by norm_num) (by norm_num)]
      norm_num)] at h
  exact F.nan_ne_fin 0 (congrArg Vec3F.x h)

/-- C7, amended: with zero input direction the player position is exactly
unchanged for every `dt`, provided the player is not already overlapping the
opponent (pre-tick center distance at least `min_distance`): the candidate
equals the current position and the no-collision branch commits it
unchanged. In overlapping states the collision branch computes `0.0/0.0` and
commits `NaN` instead (see the counterexample). -/
theorem C7_idle_idempotent (a d : Bool) (dt px py pz ox oy oz rp ro : ℝ)
    (hzero : direction a d = ⟨F.fin 0, F.fin 0⟩)
    (hpre : rp + ro ≤ Real.sqrt ((px - ox)^2 + (py - oy)^2 + (pz - oz)^2)) :
    move_player a d (F.fin dt) (v3 px py pz) (v3 ox oy oz) (F.fin rp) (F.fin ro)
      = v3 px py pz := by
  have hd : dirR a d = 0 := by
    have h0 := (direction_eval a d).symm.trans hzero
    rw [Vec2F.mk.injEq, F.fin_injEq] at h0
    exact h0.1
  have h := move_player_caseA a d dt px py pz ox oy oz rp ro (by
    rw [hd]
    simpa using hpre)
  rw [h, hd, v3_injEq]
  norm_num

/-- C7, witness: the amended theorem at a concrete non-overlapping state
(player `(1,2,3)`, opponent `(90,2,3)`, no key held, `dt = 7`). -/
theorem C7_witness :
    direction false false = ⟨F.fin 0, F.fin 0⟩
    ∧ (25:ℝ) + 25 ≤ Real.sqrt ((1 - 90)^2 + (2 - 2)^2 + (3 - 3)^2)
    ∧ move_player false false (F.fin 7) (v3 1 2 3) (v3 90 2 3) (F.fin 25) (F.fin 25)
      = v3 1 2 3 := by
  have hpre : (25:ℝ) + 25 ≤ Real.sqrt ((1 - 90)^2 + (2 - 2)^2 + (3 - 3)^2) := by
    rw [show ((1:ℝ) - 90)^2 + ((2:ℝ) - 2)^2 + ((3:ℝ) - 3)^2 = 7921 by norm_num,
      sqrt_eval 89 7921 (by norm_num) (by norm_num)]
    norm_num
  exact ⟨rfl, hpre,
    C7_idle_idempotent false false 7 1 2 3 90 2 3 25 25 rfl hpre⟩

/-- Evaluation of `update_camera` on finite inputs: exact (unclamped) lerp
toward `(player.x, player.y + 150, camera.z)` with factor `dt * 2`. -/
lemma update_camera_eval (cx cy cz px py pz dt : ℝ) :
    update_camera (v3 cx cy cz) (v3 px py pz) (F.fin dt)
      = v3 (cx + (px - cx) * (dt * 2)) (cy + (py + 150 - cy) * (dt * 2)) cz := by
  simp only [update_camera, Vec3F.lerp, Vec3F.sub, Vec3F.add, Vec3F.smul, v3,
    CAM_LERP_FACTOR, F.mul_fin, F.add_fin, F.sub_fin]
  rw [Vec3F.mk.injEq]
  refine ⟨by rw [F.fin_injEq], by rw [F.fin_injEq], by rw [F.fin_injEq]; ring⟩

/-- C6, counterexample: the interpolation factor is NOT clamped to `[0,1]`.
Camera `(0,0,5)`, stationary player `(0,0,2)` (target `(0,150,5)`), `dt = 5/4`
gives factor `5/2`: the code commits `(0,375,5)` while the claimed clamped
formula gives `y = 150`; the camera overshoots and ends strictly FARTHER from
the target (`225 > 150`) instead of monotonically closer. -/
theorem C6_counterexample :
    update_camera (v3 0 0 5) (v3 0 0 2) (F.fin (5/4)) = v3 0 375 5
    ∧ (0:ℝ) + (0 + 150 - 0) * (max (min (5/4 * 2) 1) 0) = 150
    ∧ (375:ℝ) ≠ 150
    ∧ |(375:ℝ) - 150| > |(0:ℝ) - 150| := by
  refine ⟨?_, by norm_num, by norm_num, by norm_num⟩
  rw [update_camera_eval, v3_injEq]
  norm_num

/-- C6, amended: the camera update is the UNCLAMPED lerp
`C_new = C + (T - C) * (L * dt)` with `T = (player.x, player.y + 150, C.z)`.
For `0 ≤ L * dt ≤ 1` each tick multiplies the per-axis distance to the target
by the factor `1 - L * dt ∈ [0,1]`, so repeated ticks with a stationary
player move the camera monotonically closer without overshooting; for
`L * dt > 1` the factor is not clamped and the camera can overshoot (see the
counterexample). -/
theorem C6_camera_lerp (cx cy cz px py pz dt : ℝ)
    (h0 : 0 ≤ dt) (h1 : dt * 2 ≤ 1) :
    update_camera (v3 cx cy cz) (v3 px py pz) (F.fin dt)
      = v3 (cx + (px - cx) * (dt * 2)) (cy + (py + 150 - cy) * (dt * 2)) cz
    ∧ |cx + (px - cx) * (dt * 2) - px| = (1 - dt * 2) * |cx - px|
    ∧ |cy + (py + 150 - cy) * (dt * 2) - (py + 150)| = (1 - dt * 2) * |cy - (py + 150)|
    ∧ |cx + (px - cx) * (dt * 2) - px| ≤ |cx - px|
    ∧ |cy + (py + 150 - cy) * (dt * 2) - (py + 150)| ≤ |cy - (py + 150)| := by
  have hx : cx + (px - cx) * (dt * 2) - px = (1 - dt * 2) * (cx - px) := by ring
  have hy : cy + (py + 150 - cy) * (dt * 2) - (py + 150)
      = (1 - dt * 2) * (cy - (py + 150)) := by ring
  have hfac : 0 ≤ 1 - dt * 2 := by linarith
  have hx2 : |cx + (px - cx) * (dt * 2) - px| = (1 - dt * 2) * |cx - px| := by
    rw [hx, abs_mul, abs_of_nonneg hfac]
  have hy2 : |cy + (py + 150 - cy) * (dt * 2) - (py + 150)|
      = (1 - dt * 2) * |cy - (py + 150)| := by
    rw [hy, abs_mul, abs_of_nonneg hfac]
  refine ⟨update_camera_eval cx cy cz px py pz dt, hx2, hy2, ?_, ?_⟩
  · rw [hx2]
    exact mul_le_of_le_one_left (abs_nonneg _) (by linarith)
  · rw [hy2]
    exact mul_le_of_le_one_left (abs_nonneg _) (by linarith)

/-- C6, witness: the amended theorem at camera `(0,0,5)`, player `(3,4,2)`,
`dt = 1/4` (factor `1/2`). -/
theorem C6_witness :
    (0:ℝ) ≤ 1/4 ∧ (1:ℝ)/4 * 2 ≤ 1
    ∧ update_camera (v3 0 0 5) (v3 3 4 2) (F.fin (1/4))
      = v3 (0 + (3 - 0) * (1/4 * 2)) (0 + (4 + 150 - 0) * (1/4 * 2)) 5
    ∧ |(0:ℝ) + (3 - 0) * (1/4 * 2) - 3| ≤ |(0:ℝ) - 3|
    ∧ |(0:ℝ) + (4 + 150 - 0) * (1/4 * 2) - (4 + 150)| ≤ |(0:ℝ) - (4 + 150)| := by
  have h := C6_camera_lerp 0 0 5 3 4 2 (1/4) (by norm_num) (by norm_num)
  exact ⟨by norm_num, by norm_num, h.1, h.2.2.2.1, h.2.2.2.2⟩

/-- C8: for every combination of the two movement keys, the raw direction is
the sum of per-key unit contributions (`-1` in `x` for `A`, `+1` in `x` for
`D`, nothing in `y`), and `normalize_or_zero` maps a zero-magnitude sum to
the zero vector (no division by zero) and any nonzero sum to a unit vector. -/
theorem C8_input_normalization (a d : Bool) :
    direction a d = ⟨F.fin (dirR a d), F.fin 0⟩
    ∧ (dirR a d = 0 → Vec2F.normalize_or_zero (direction a d) = ⟨F.fin 0, F.fin 0⟩)
    ∧ (dirR a d ≠ 0 → Vec2F.length (Vec2F.normalize_or_zero (direction a d)) = F.fin 1) := by
  refine ⟨direction_eval a d, ?_, ?_⟩ <;> rcases a <;> rcases d <;> intro h
  · simp [direction, Vec2F.normalize_or_zero, Vec2F.length_recip, Vec2F.length,
      Vec2F.dot, Vec2F.smul, F.sqrt, F.recip, F.div, F.gt]
  · norm_num [dirR] at h
  · norm_num [dirR] at h
  · simp [direction, Vec2F.normalize_or_zero, Vec2F.length_recip, Vec2F.length,
      Vec2F.dot, Vec2F.smul, F.sqrt, F.recip, F.div, F.gt]
  · norm_num [dirR] at h
  · simp [direction, Vec2F.normalize_or_zero, Vec2F.length_recip, Vec2F.length,
      Vec2F.dot, Vec2F.smul, F.sqrt, F.recip, F.div, F.gt]
    norm_num [Real.sqrt_one]
  · simp [direction, Vec2F.normalize_or_zero, Vec2F.length_recip, Vec2F.length,
      Vec2F.dot, Vec2F.smul, F.sqrt, F.recip, F.div, F.gt]
    norm_num [Real.sqrt_one]
  · norm_num [dirR] at h

/-- C8, witness: with only `D` held the sum is nonzero and the normalized
direction is a unit vector. -/
theorem C8_witness :
    dirR false true ≠ 0
    ∧ Vec2F.length (Vec2F.normalize_or_zero (direction false true)) = F.fin 1 := by
  have hne : dirR false true ≠ 0 := by norm_num [dirR]
  exact ⟨hne, (C8_input_normalization false true).2.2 hne⟩

/-- C9: when the player or the opponent is missing the movement system leaves
the world unchanged, and when the camera or the player is missing the camera
system leaves the world unchanged; both stages are total (no error). -/
theorem C9_missing_entity_noop (w : World) (a d : Bool) (dt : F) :
    ((w.player = none ∨ w.opponent = none) → move_player_sys w a d dt = w)
    ∧ ((w.camera = none ∨ w.player = none) → update_camera_sys w dt = w) := by
  obtain ⟨p, o, c⟩ := w
  refine ⟨?_, ?_⟩
  · rintro (rfl | rfl)
    · rcases o with _ | ⟨ot, orad⟩ <;> rfl
    · rcases p with _ | ⟨pt, pr⟩ <;> rfl
  · rintro (rfl | rfl)
    · rcases p with _ | ⟨pt, pr⟩ <;> rfl
    · rcases c with _ | ct <;> rfl

/-- C9, witness: a world with no player entity is unchanged by both systems. -/
theorem C9_witness :
    move_player_sys
        { player := none, opponent := some (v3 150 0 1, F.fin 25),
          camera := some (v3 0 0 5) } false true (F.fin 1)
      = { player := none, opponent := some (v3 150 0 1, F.fin 25),
          camera := some (v3 0 0 5) }
    ∧ update_camera_sys
        { player := none, opponent := some (v3 150 0 1, F.fin 25),
          camera := some (v3 0 0 5) } (F.fin 1)
      = { player := none, opponent := some (v3 150 0 1, F.fin 25),
          camera := some (v3 0 0 5) } := by
  have h := C9_missing_entity_noop
    { player := none, opponent := some (v3 150 0 1, F.fin 25),
      camera := some (v3 0 0 5) } false true (F.fin 1)
  exact ⟨h.1 (Or.inl rfl), h.2 (Or.inr rfl)⟩
